import Mathlib

/-!
Shallow embedding of the `actualbudget` Home Assistant custom integration
(`custom_components/actualbudget/`): the session lifecycle manager and lock
discipline of `actual.py` (`ActualAPI.get_session`, `ActualAPI._sync`), the
budget-row aggregation (`_get_budgets`, `_get_budget`,
`_get_uncategorized_transactions_count`), the sensor update logic of
`sensor.py` (`async_update`, `state`, `available`) and the config flow of
`config_flow.py` (`async_step_user`, `_test_connection`).

Times are modelled as integers counted in seconds; machine clock readings
(`datetime.now()`) become explicit `now` parameters.  External library calls
(`actual.validate()`, `actual.sync()`, `get_accounts`, `get_budgets`,
`get_category`, `get_transactions`) become oracle parameters holding the data
or outcome the library would return.
-/

namespace ActualBudget

/-- `SESSION_TIMEOUT = timedelta(minutes=30)`, in seconds (`actual.py:53`). -/
def SESSION_TIMEOUT : Int := 1800

/-- `MINIMUM_INTERVAL = datetime.timedelta(minutes=1)`, in seconds
(`sensor.py:43`). -/
def MINIMUM_INTERVAL : Int := 60

/-! ## Lock discipline of `_sync` and `get_session` (`actual.py`)

`self._lock` is a non-reentrant `threading.Lock`.  We record, for a single
thread, the sequence of acquire/release operations a method performs on it,
and interpret that sequence over the lock's hold count.  Acquiring the lock
while the same thread already holds it blocks forever (`threading.Lock` is
not reentrant), which the interpreter models by returning `none`. -/

inductive LockOp where
  | acquire
  | release
  deriving DecidableEq, Repr

/-- Run a sequence of lock operations of one thread on a single non-reentrant
lock whose hold count (by this thread) is `n`.  `none` means the thread
blocked forever (self-deadlock on re-acquisition, or an impossible release). -/
def runOps : List LockOp → Nat → Option Nat
  | [], n => some n
  | LockOp.acquire :: rest, n => if n = 0 then runOps rest 1 else none
  | LockOp.release :: rest, n => if n = 1 then runOps rest 0 else none

/-- Lock operations performed by `ActualAPI.get_session` (`actual.py:104-135`):
the whole body runs under `with self._lock:`. -/
def get_session_ops : List LockOp := [LockOp.acquire, LockOp.release]

/-- Lock operations performed by `ActualAPI._sync` (`actual.py:174-179`):
`with self._lock:` around a call to `self.get_session()` (which itself
executes `get_session_ops`) followed by `self.actual.sync()`. -/
def sync_ops : List LockOp :=
  [LockOp.acquire] ++ get_session_ops ++ [LockOp.release]

/-! ## Session lifecycle (`ActualAPI.get_session`, `actual.py:104-135`) -/

/-- A connection handle (`Actual` context object).  `hid` identifies the
handle; `lastValidated` is the time of the last successful call to
`validate()` on it. -/
structure Handle where
  hid : Nat
  lastValidated : Int
  deriving DecidableEq, Repr

/-- The session-relevant state of `ActualAPI`: the cached handle
(`self.actual`, `None` when absent) and `self.session_started_at`. -/
structure ApiState where
  actual : Option Handle
  session_started_at : Int
  deriving DecidableEq, Repr

/-- Observable events of one `get_session` call: handle closed
(`__exit__`), handle validated (`validate()` succeeded), handle synced
(`sync()`), handle created (`Actual(...)` + `__enter__`). -/
inductive SessionEvent where
  | closed (hid : Nat)
  | validated (hid : Nat)
  | synced (hid : Nat)
  | created (hid : Nat)
  deriving DecidableEq, Repr

/-- `ActualAPI.get_session` (`actual.py:104-135`), run at time `now`.
`validateOk` is the oracle for whether `validate()`/`sync()` on the cached
handle succeed (line 121-125; any exception there discards the handle,
line 126-128).  `freshId` is the identity of the handle `_create_session`
would return; `_create_session` (`actual.py:137-168`) validates the new
handle before returning it.  Returns the handle whose `.session` is
returned, the new state, and the event trace. -/
def get_session (st : ApiState) (now : Int) (validateOk : Bool) (freshId : Nat) :
    Handle × ApiState × List SessionEvent :=
  -- Invalidate session if it is too old (lines 107-116)
  let step1 : Option Handle × List SessionEvent :=
    match st.actual with
    | some h =>
      if st.session_started_at + SESSION_TIMEOUT < now then
        (none, [SessionEvent.closed h.hid])
      else
        (some h, [])
    | none => (none, [])
  -- Validate existing session, and sync it (lines 118-128)
  let step2 : Option Handle × List SessionEvent :=
    match step1.1 with
    | some h =>
      if validateOk then
        (some { h with lastValidated := now },
          [SessionEvent.validated h.hid, SessionEvent.synced h.hid])
      else
        (none, [SessionEvent.validated h.hid])
    | none => (none, [])
  -- Create a new session if needed (lines 130-133)
  match step2.1 with
  | some h => (h, { st with actual := some h }, step1.2 ++ step2.2)
  | none =>
    let h : Handle := { hid := freshId, lastValidated := now }
    (h, { actual := some h, session_started_at := now },
      step1.2 ++ step2.2 ++ [SessionEvent.created freshId, SessionEvent.validated freshId])

/-! ## Data records (`actual.py:56-78`) and raw library rows

Monetary values (`float` / `Decimal` in the source) are modelled as `Rat`.
A raw budget row (what `actual.queries.get_budgets` yields) carries an
optional category, an optional raw amount in cents (an integer; Python's
`not budget_raw.amount` is true both for `None` and for `0`), and a month
encoded as the integer `YYYYMM`. -/

/-- `BudgetAmount` dataclass (`actual.py:56-60`). -/
structure BudgetAmount where
  month : String
  amount : Option Rat
  deriving DecidableEq, Repr

/-- `Budget` dataclass (`actual.py:63-70`).  Field names `id`/`name` are
taken as `bid`/`bname`. -/
structure Budget where
  bid : Option String
  bname : String
  group_name : Option String
  amounts : List BudgetAmount
  balance : Rat
  deriving DecidableEq, Repr

/-- `Account` dataclass (`actual.py:73-78`). -/
structure Account where
  aid : Option String
  aname : Option String
  balance : Rat
  deriving DecidableEq, Repr

/-- A category object attached to a raw budget row: `category.id`,
`category.name`, and the optional `category.group` (we keep only the
group's `.name`). -/
structure CategoryRec where
  cid : String
  cname : String
  group : Option String
  deriving DecidableEq, Repr

/-- A raw per-month budget row from the client library.  `amount` is the
raw amount in cents (`none` when absent), `month` the integer `YYYYMM`. -/
structure RawBudget where
  category : Option CategoryRec
  amount : Option Int
  month : Nat
  deriving DecidableEq, Repr

/-- The amount conversion shared by `_get_budgets` (`actual.py:233`) and
`_get_budget` (`actual.py:289`):
`None if not budget_raw.amount else (float(budget_raw.amount) / 100)`.
Python's `not x` is true for `None` and for `0`, so a raw amount of `0`
also maps to `none`. -/
def toAmount : Option Int → Option Rat
  | none => none
  | some v => if v = 0 then none else some ((v : Rat) / 100)

/-- The display name used as grouping key (`actual.py:222-231`):
`f"{group_name} - {category_name}"` when the category has a group,
otherwise the category name. -/
def displayName (c : CategoryRec) : String :=
  match c.group with
  | some g => g ++ " - " ++ c.cname
  | none => c.cname

/-- The display name of a row's category, `none` when the row has no
category. -/
def rowDisplay (r : RawBudget) : Option String := r.category.map displayName

/-- The `BudgetAmount` a row contributes (`actual.py:233-234,244-246` and
`actual.py:289-291`): month is `str(budget_raw.month)`. -/
def convertRow (r : RawBudget) : BudgetAmount :=
  { month := toString r.month, amount := toAmount r.amount }

/-- The fresh `Budget` record created for a display name seen for the first
time (`actual.py:236-243`). -/
def newBudget (c : CategoryRec) : Budget :=
  { bid := some c.cid, bname := c.cname, group_name := c.group,
    amounts := [], balance := 0 }

/-- Lookup in the `budgets` dict, modelled as an association list in
insertion order (Python dicts preserve insertion order). -/
def lookupB (d : String) : List (String × Budget) → Option Budget
  | [] => none
  | (k, b) :: t => if k = d then some b else lookupB d t

/-- `budgets[display_name].amounts.append(...)` (`actual.py:244-246`):
append one `BudgetAmount` to the entry keyed `d`. -/
def appendAmount : List (String × Budget) → String → BudgetAmount →
    List (String × Budget)
  | [], _, _ => []
  | (k, b) :: t, d, a =>
    if k = d then (k, { b with amounts := b.amounts ++ [a] }) :: appendAmount t d a
    else (k, b) :: appendAmount t d a

/-- The body of the row loop of `_get_budgets` (`actual.py:218-246`): rows
without a category are skipped; otherwise the entry for the row's display
name is created if absent and the converted row appended to it. -/
def insertRow (acc : List (String × Budget)) (r : RawBudget) :
    List (String × Budget) :=
  match r.category with
  | none => acc
  | some c =>
    let d := displayName c
    let acc1 := if (lookupB d acc).isSome then acc else acc ++ [(d, newBudget c)]
    appendAmount acc1 d (convertRow r)

/-- The ordering key of `sorted(..., key=lambda x: x.month)`
(`actual.py:249-251`, `actual.py:293`): ascending month string. -/
def monthLe (x y : BudgetAmount) : Prop := x.month ≤ y.month

instance : DecidableRel monthLe := fun x y => by
  unfold monthLe; infer_instance

instance : IsTotal BudgetAmount monthLe :=
  ⟨fun x y => le_total x.month y.month⟩

instance : IsTrans BudgetAmount monthLe :=
  ⟨fun _ _ _ h h' => le_trans h h'⟩

/-- `sorted(amounts, key=lambda x: x.month)` — Python's stable sort by
month string, modelled by (stable) insertion sort. -/
def sortAmounts (l : List BudgetAmount) : List BudgetAmount :=
  List.insertionSort monthLe l

/-- `ActualAPI._get_budgets` (`actual.py:212-257`).  `rows` is what
`get_budgets(session)` returned; `balanceOf n` is what
`get_category(session, n)` returns for a category name `n` (`none` when no
category is found, in which case the balance defaults to `Decimal(0)`,
lines 252-255). -/
def get_budgets (rows : List RawBudget) (balanceOf : String → Option Rat) :
    List Budget :=
  (rows.foldl insertRow []).map fun p =>
    { p.2 with
      amounts := sortAmounts p.2.amounts
      balance := (balanceOf p.2.bname).getD 0 }

/-- `ActualAPI._get_budget` (`actual.py:266-296`).  `rows` is what
`get_budgets(session, None, budget_name)` returned; an empty result raises
(`none` here).  All rows are converted (no category filter), sorted, and
packed into one `Budget` named `budgetName` whose id/group come from the
first row's category. -/
def get_budget (budgetName : String) (rows : List RawBudget)
    (balanceOf : String → Option Rat) : Option Budget :=
  match rows with
  | [] => none
  | r0 :: _ =>
    some
      { bid := (r0.category.map CategoryRec.cid)
        bname := budgetName
        group_name :=
          match r0.category with
          | some c => c.group
          | none => none
        amounts := sortAmounts (rows.map convertRow)
        balance := (balanceOf budgetName).getD 0 }

/-- A transaction as seen by `_get_uncategorized_transactions_count`: only
its optional category matters. -/
structure Transaction where
  category : Option String
  deriving DecidableEq, Repr

/-- `ActualAPI._get_uncategorized_transactions_count` (`actual.py:304-310`):
`len([t for t in transactions if t.category is None])`. -/
def get_uncategorized_transactions_count (ts : List Transaction) : Nat :=
  (ts.filter fun t => t.category.isNone).length

/-! ## Sensor entities (`sensor.py`)

Each sensor's mutable fields become a state record; `async_update` becomes a
transition taking the current time `now` and an oracle `fetch` for the
outcome of the API call it awaits (`Except` error = the call raised).  The
`if account:` / `if budget:` truthiness tests of the source are always true
for a returned dataclass instance, so a successful fetch always carries a
value. -/

/-- Mutable fields of `ActualAccountSensor` (`sensor.py:109-134`):
`_balance`, `_account_id`, `_available`, `_balance_last_updated`. -/
structure AccountSensorState where
  balance : Rat
  account_id : Option String
  available : Bool
  balance_last_updated : Int
  deriving DecidableEq, Repr

/-- `ActualAccountSensor.async_update` (`sensor.py:180-199`): skip the fetch
when the last update is less than `MINIMUM_INTERVAL` old; on success update
balance, account id and the update time; on any exception mark unavailable
and change nothing else. -/
def account_async_update (st : AccountSensorState) (now : Int)
    (fetch : Except String Account) : AccountSensorState :=
  if now - st.balance_last_updated < MINIMUM_INTERVAL then st
  else
    match fetch with
    | Except.ok a =>
        { st with balance := a.balance, account_id := a.aid,
                  balance_last_updated := now }
    | Except.error _ => { st with available := false }

/-- Mutable fields of `ActualBudgetSensor` (`sensor.py:202-231`). -/
structure BudgetSensorState where
  budget_id : Option String
  group_name : Option String
  amounts : List BudgetAmount
  balance : Rat
  available : Bool
  balance_last_updated : Int
  deriving DecidableEq, Repr

/-- `ActualBudgetSensor.async_update` (`sensor.py:300-321`). -/
def budget_async_update (st : BudgetSensorState) (now : Int)
    (fetch : Except String Budget) : BudgetSensorState :=
  if now - st.balance_last_updated < MINIMUM_INTERVAL then st
  else
    match fetch with
    | Except.ok b =>
        { st with balance_last_updated := now, amounts := b.amounts,
                  balance := b.balance, budget_id := b.bid,
                  group_name := b.group_name }
    | Except.error _ => { st with available := false }

/-- Mutable fields of `ActualUncategorizedTransactionsSensor`
(`sensor.py:324-338`). -/
structure UncatSensorState where
  count : Nat
  available : Bool
  last_updated : Int
  deriving DecidableEq, Repr

/-- `ActualUncategorizedTransactionsSensor.async_update`
(`sensor.py:365-380`). -/
def uncat_async_update (st : UncatSensorState) (now : Int)
    (fetch : Except String Nat) : UncatSensorState :=
  if now - st.last_updated < MINIMUM_INTERVAL then st
  else
    match fetch with
    | Except.ok n => { st with count := n, last_updated := now }
    | Except.error _ => { st with available := false }

/-- The numeric value of a month string, used to model
`datetime.strptime(amount.month, '%Y%m') <= datetime.now()`
(`sensor.py:271`): for the canonical `str(YYYYMM)` strings produced by
`convertRow`, comparing the parsed month start against the current instant
is equivalent to comparing the integer `YYYYMM` against the current month's
integer. -/
def monthNum (s : String) : Nat := (s.toNat?).getD 0

/-- The running total of `ActualBudgetSensor.state` (`sensor.py:269-272`):
`total += amount.amount if amount.amount else 0` for each amount whose
month is not later than the current month `curMonth`.  Python's truthiness
makes an amount of `0.0` contribute `0`, the same as `None`. -/
def budgetStateTotal (amounts : List BudgetAmount) (curMonth : Nat) : Rat :=
  amounts.foldl
    (fun total a =>
      if monthNum a.month ≤ curMonth then
        total +
          (match a.amount with
           | none => 0
           | some v => if v = 0 then 0 else v)
      else total)
    0

/-- Round half-to-even to an integer, as Python's `round` does on the
`Decimal` sum (`sensor.py:273`). -/
def roundHalfEven (x : Rat) : Int :=
  if x - x.floor < 1 / 2 then x.floor
  else if x - x.floor > 1 / 2 then x.floor + 1
  else if x.floor % 2 = 0 then x.floor else x.floor + 1

/-- `round(value, 2)`: round half-to-even at two decimal places. -/
def roundHalfEven2 (x : Rat) : Rat := (roundHalfEven (x * 100) : Rat) / 100

/-- `ActualBudgetSensor.state` (`sensor.py:267-273`):
`round(self._balance + Decimal(total), 2)`. -/
def budgetSensorState (st : BudgetSensorState) (curMonth : Nat) : Rat :=
  roundHalfEven2 (st.balance + budgetStateTotal st.amounts curMonth)

/-! ## Config flow (`config_flow.py`) -/

/-- The submitted form data (`DATA_SCHEMA`, `config_flow.py:26-35`). -/
structure ConfigData where
  endpoint : String
  password : String
  file : String
  cert : Option String
  encrypt_password : Option String
  currency : String
  deriving DecidableEq, Repr

/-- Result of a config-flow step: the initial form, an abort because the
unique id (the lower-cased file id) is already configured, the form
re-shown with a base error, or a created entry holding the submitted
data. -/
inductive FlowResult where
  | showFormInitial
  | abortAlreadyConfigured
  | showFormError (e : String)
  | createEntry (data : ConfigData)
  deriving DecidableEq, Repr

/-- `ConfigFlow.async_step_user` (`config_flow.py:44-93`).
`alreadyConfigured` is whether `_abort_if_unique_id_configured` aborts for
this file id; `testResult d` is what `self._test_connection(...)` returns
for the submitted data (`none` = success).  On success the entry is created
with `data=user_input`. -/
def async_step_user (userInput : Option ConfigData) (alreadyConfigured : Bool)
    (testResult : ConfigData → Option String) : FlowResult :=
  match userInput with
  | none => FlowResult.showFormInitial
  | some input =>
    if alreadyConfigured then FlowResult.abortAlreadyConfigured
    else
      match testResult input with
      | some e => FlowResult.showFormError e
      | none => FlowResult.createEntry input

/-- Possible outcomes of the session-creation attempt inside
`ActualAPI._test_connection` (`actual.py:325-382`): success, `get_session`
returned a null session, or one of the caught exception classes. -/
inductive ConnOutcome where
  | ok
  | noSession
  | sslError
  | connectionError
  | authorizationError
  | unknownFileId
  | invalidFile
  | invalidZipFile
  | otherError
  deriving DecidableEq, Repr

/-- The error-code mapping of `ActualAPI._test_connection`
(`actual.py:325-382`): `None` on success, otherwise a `failed_*` code. -/
def test_connection_result : ConnOutcome → Option String
  | ConnOutcome.ok => none
  | ConnOutcome.noSession => some "failed_file"
  | ConnOutcome.sslError => some "failed_ssl"
  | ConnOutcome.connectionError => some "failed_connection"
  | ConnOutcome.authorizationError => some "failed_auth"
  | ConnOutcome.unknownFileId => some "failed_file"
  | ConnOutcome.invalidFile => some "failed_file"
  | ConnOutcome.invalidZipFile => some "failed_file"
  | ConnOutcome.otherError => some "failed_unknown"

/-- One polling step of an account sensor, for iterating `async_update`
over a schedule of (time, fetch outcome) pairs. -/
def accountStep (st : AccountSensorState) (p : Int × Except String Account) :
    AccountSensorState :=
  account_async_update st p.1 p.2

/-- One polling step of a budget sensor. -/
def budgetStep (st : BudgetSensorState) (p : Int × Except String Budget) :
    BudgetSensorState :=
  budget_async_update st p.1 p.2

/-- One polling step of the uncategorized-transactions sensor. -/
def uncatStep (st : UncatSensorState) (p : Int × Except String Nat) :
    UncatSensorState :=
  uncat_async_update st p.1 p.2

/-- Replace a raw amount of `0` by an absent amount (used to state that the
two are indistinguishable, claim C9). -/
def zeroToNone (r : RawBudget) : RawBudget :=
  if r.amount = some 0 then { r with amount := none } else r

/-! ## Helper notions and lemmas about the budget grouping -/

/-- The amounts stored in the `budgets` dict under display name `d`
(empty when the key is absent). -/
def amountsOf (l : List (String × Budget)) (d : String) : List BudgetAmount :=
  match lookupB d l with
  | some b => b.amounts
  | none => []

/-- Distinct elements of a list in order of first appearance — the key set
of a Python dict filled in iteration order. -/
def firstKeys (ds : List String) : List String :=
  ds.foldl (fun ks d => if d ∈ ks then ks else ks ++ [d]) []

/-- The amount conversion as claim C3 words it: the raw amount divided by
100, `none` exactly when the raw amount is absent. -/
def toAmountClaim : Option Int → Option Rat
  | none => none
  | some v => some ((v : Rat) / 100)

lemma lookupB_appendAmount (l : List (String × Budget)) (d d0 : String)
    (a : BudgetAmount) :
    lookupB d (appendAmount l d0 a) =
      (lookupB d l).map fun b =>
        if d = d0 then { b with amounts := b.amounts ++ [a] } else b := by
  induction l with
  | nil => rfl
  | cons p t ih =>
    obtain ⟨k, b⟩ := p
    by_cases h0 : k = d0
    · by_cases hk : k = d
      · subst h0; subst hk
        simp [appendAmount, lookupB, ih]
      · have h0k : ¬ d0 = d := by rw [← h0]; exact hk
        simp [appendAmount, lookupB, h0, hk, h0k, ih]
    · by_cases hk : k = d
      · subst hk
        have hd0 : ¬ k = d0 := h0
        simp [appendAmount, lookupB, h0, hd0, ih]
      · simp [appendAmount, lookupB, h0, hk, ih]


lemma lookupB_append_single (l : List (String × Budget)) (d d0 : String)
    (b0 : Budget) :
    lookupB d (l ++ [(d0, b0)]) =
      if (lookupB d l).isSome then lookupB d l
      else if d0 = d then some b0 else none := by
  induction l with
  | nil => simp [lookupB]
  | cons p t ih =>
    obtain ⟨k, b⟩ := p
    by_cases hk : k = d <;> simp [lookupB, hk, ih]

lemma amountsOf_insertRow (acc : List (String × Budget)) (r : RawBudget)
    (d : String) :
    amountsOf (insertRow acc r) d =
      amountsOf acc d ++ if rowDisplay r = some d then [convertRow r] else [] := by
  cases hc : r.category with
  | none => simp [insertRow, rowDisplay, hc, amountsOf]
  | some c =>
    have hdisp : rowDisplay r = some (displayName c) := by
      simp [rowDisplay, hc]
    rw [hdisp]
    simp only [insertRow, hc]
    by_cases hd : displayName c = d
    · subst hd
      simp only [Option.some.injEq, if_pos rfl]
      by_cases hs : (lookupB (displayName c) acc).isSome
      · obtain ⟨b, hb⟩ := Option.isSome_iff_exists.mp hs
        simp [hs, amountsOf, lookupB_appendAmount, hb]
      · have hn : lookupB (displayName c) acc = none :=
          Option.not_isSome_iff_eq_none.mp hs
        simp [hs, amountsOf, lookupB_appendAmount, lookupB_append_single, hn,
          newBudget]
    · have hd' : ¬ d = displayName c := fun h => hd h.symm
      have hne : ¬ (some (displayName c) = some d) := by
        simp only [Option.some.injEq]; exact hd
      rw [if_neg hne, List.append_nil]
      by_cases hs : (lookupB (displayName c) acc).isSome
      · simp [hs, amountsOf, lookupB_appendAmount, hd']
      · have hn : lookupB (displayName c) acc = none :=
          Option.not_isSome_iff_eq_none.mp hs
        simp only [amountsOf, lookupB_appendAmount, hn, Option.isSome_none,
          Bool.false_eq_true, if_false, lookupB_append_single, if_neg hd]
        cases hdl : lookupB d acc <;> simp [hdl, hd']

lemma amountsOf_foldl (rows : List RawBudget) (acc : List (String × Budget))
    (d : String) :
    amountsOf (rows.foldl insertRow acc) d =
      amountsOf acc d ++
        (rows.filter fun r => rowDisplay r = some d).map convertRow := by
  induction rows generalizing acc with
  | nil => simp
  | cons r t ih =>
    simp only [List.foldl_cons, ih, amountsOf_insertRow, List.filter_cons]
    by_cases h : rowDisplay r = some d <;> simp [h, List.append_assoc]

lemma keys_appendAmount (l : List (String × Budget)) (d : String)
    (a : BudgetAmount) :
    (appendAmount l d a).map Prod.fst = l.map Prod.fst := by
  induction l with
  | nil => rfl
  | cons p t ih =>
    obtain ⟨k, b⟩ := p
    by_cases hk : k = d <;> simp [appendAmount, hk, ih]

lemma lookupB_isSome_iff (d : String) (l : List (String × Budget)) :
    (lookupB d l).isSome ↔ d ∈ l.map Prod.fst := by
  induction l with
  | nil => simp [lookupB]
  | cons p t ih =>
    obtain ⟨k, b⟩ := p
    by_cases hk : k = d
    · subst hk; simp [lookupB]
    · have hk' : ¬ d = k := fun h => hk h.symm
      simp [lookupB, hk, hk', ih]

lemma keys_insertRow (acc : List (String × Budget)) (r : RawBudget) :
    (insertRow acc r).map Prod.fst =
      match rowDisplay r with
      | none => acc.map Prod.fst
      | some d =>
        if d ∈ acc.map Prod.fst then acc.map Prod.fst
        else acc.map Prod.fst ++ [d] := by
  cases hc : r.category with
  | none => simp [insertRow, rowDisplay, hc]
  | some c =>
    simp only [insertRow, rowDisplay, hc, Option.map_some']
    by_cases hs : (lookupB (displayName c) acc).isSome
    · have hm : displayName c ∈ acc.map Prod.fst := (lookupB_isSome_iff _ _).mp hs
      simp [hs, keys_appendAmount, hm]
    · have hm : displayName c ∉ acc.map Prod.fst :=
        fun h => hs ((lookupB_isSome_iff _ _).mpr h)
      simp [hs, keys_appendAmount, hm]

lemma keys_foldl (rows : List RawBudget) (acc : List (String × Budget)) :
    (rows.foldl insertRow acc).map Prod.fst =
      (rows.filterMap rowDisplay).foldl
        (fun ks d => if d ∈ ks then ks else ks ++ [d]) (acc.map Prod.fst) := by
  induction rows generalizing acc with
  | nil => simp
  | cons r t ih =>
    cases hr : rowDisplay r with
    | none =>
      simp only [List.foldl_cons, List.filterMap_cons, hr]
      rw [ih, keys_insertRow, hr]
    | some d =>
      simp only [List.foldl_cons, List.filterMap_cons, hr]
      rw [ih, keys_insertRow, hr]

lemma foldl_insertRow_filter (rows : List RawBudget)
    (acc : List (String × Budget)) :
    (rows.filter fun r => r.category.isSome).foldl insertRow acc =
      rows.foldl insertRow acc := by
  induction rows generalizing acc with
  | nil => rfl
  | cons r t ih =>
    cases hc : r.category with
    | none =>
      have hskip : insertRow acc r = acc := by simp [insertRow, hc]
      simp [List.filter_cons, hc, ih, hskip]
    | some c => simp [List.filter_cons, hc, ih]

lemma foldl_addKey_nodup (ds : List String) (ks : List String) (h : ks.Nodup) :
    (ds.foldl (fun ks d => if d ∈ ks then ks else ks ++ [d]) ks).Nodup := by
  induction ds generalizing ks with
  | nil => exact h
  | cons d t ih =>
    simp only [List.foldl_cons]
    by_cases hd : d ∈ ks
    · simpa [hd] using ih ks h
    · have hn : (ks ++ [d]).Nodup := by
        simp [List.nodup_append, h, hd]
      simpa [hd] using ih _ hn

/-! ## Helpers for the zero-amount claim (C9) -/

lemma zeroToNone_category (r : RawBudget) :
    (zeroToNone r).category = r.category := by
  unfold zeroToNone; split <;> rfl

lemma convertRow_zeroToNone (r : RawBudget) :
    convertRow (zeroToNone r) = convertRow r := by
  unfold zeroToNone; split
  · rename_i h
    simp [convertRow, toAmount, h]
  · rfl

lemma insertRow_zeroToNone (acc : List (String × Budget)) (r : RawBudget) :
    insertRow acc (zeroToNone r) = insertRow acc r := by
  unfold insertRow
  rw [zeroToNone_category, convertRow_zeroToNone]

/-! ## Helpers for the budget sensor state (C4) -/

lemma amount_falsy_val (a : BudgetAmount) :
    (match a.amount with
     | none => (0 : Rat)
     | some v => if v = 0 then 0 else v) = a.amount.getD 0 := by
  cases h : a.amount with
  | none => rfl
  | some v => by_cases hv : v = 0 <;> simp [hv]

lemma budgetStateTotal_eq_sum (amounts : List BudgetAmount) (curMonth : Nat) :
    budgetStateTotal amounts curMonth =
      ((amounts.filter fun a => monthNum a.month ≤ curMonth).map
        fun a => a.amount.getD 0).sum := by
  have key : ∀ (l : List BudgetAmount) (t : Rat),
      l.foldl
        (fun total a =>
          if monthNum a.month ≤ curMonth then
            total +
              (match a.amount with
               | none => 0
               | some v => if v = 0 then 0 else v)
          else total)
        t =
      t + ((l.filter fun a => monthNum a.month ≤ curMonth).map
        fun a => a.amount.getD 0).sum := by
    intro l
    induction l with
    | nil => intro t; simp
    | cons a l ih =>
      intro t
      simp only [List.foldl_cons, List.filter_cons]
      rw [ih]
      by_cases h : monthNum a.month ≤ curMonth
      · rw [if_pos h, amount_falsy_val]
        simp [h]
        ring
      · rw [if_neg h]
        simp [h]
  simpa [budgetStateTotal] using key amounts 0

lemma ratFloor_eq_intFloor (q : Rat) : (q.floor : Int) = ⌊q⌋ :=
  (Rat.floor_def' q).trans Rat.floor_def.symm

lemma roundHalfEven_err (x : Rat) : |x - (roundHalfEven x : Rat)| ≤ 1 / 2 := by
  unfold roundHalfEven
  rw [ratFloor_eq_intFloor]
  have h1 : (⌊x⌋ : Rat) ≤ x := Int.floor_le x
  have h2 : x < ⌊x⌋ + 1 := Int.lt_floor_add_one x
  by_cases hlt : x - ⌊x⌋ < 1 / 2
  · rw [if_pos hlt, abs_le]
    constructor <;> linarith
  · rw [if_neg hlt]
    by_cases hgt : x - ⌊x⌋ > 1 / 2
    · rw [if_pos hgt]
      push_cast
      rw [abs_le]
      constructor <;> linarith
    · rw [if_neg hgt]
      have heq : x - ⌊x⌋ = 1 / 2 :=
        le_antisymm (not_lt.mp hgt) (not_lt.mp hlt)
      by_cases hev : ⌊x⌋ % 2 = 0
      · rw [if_pos hev, abs_le]
        constructor <;> linarith
      · rw [if_neg hev]
        push_cast
        rw [abs_le]
        constructor <;> linarith

/-! ## Claim theorems -/

/-- C2 (code_bug evidence): `_sync` does NOT terminate.  `_sync` acquires
the single non-reentrant mutex and then calls `get_session`, which acquires
the same mutex in the same thread, so the thread blocks forever
(`runOps sync_ops 0 = none`), while `get_session` called on its own
terminates with the lock released (`some 0`). -/
theorem sync_deadlocks :
    runOps sync_ops 0 = none ∧ runOps get_session_ops 0 = some 0 := by
  decide

/-- C8: for every list of transactions returned by the client library,
`get_uncategorized_transactions_count` returns exactly the number of
transactions whose category is `None`. -/
theorem uncategorized_count_correct (ts : List Transaction) :
    get_uncategorized_transactions_count ts =
      ts.countP fun t => t.category = none := by
  induction ts with
  | nil => rfl
  | cons t rest ih =>
    cases h : t.category <;>
      simp [get_uncategorized_transactions_count, List.countP_cons, h,
        List.filter_cons] <;>
      simpa [get_uncategorized_transactions_count] using ih

/-- C5: for a user submission of the config-flow form whose unique id is not
already configured, a config entry holding the submitted data is created if
and only if the connectivity test returns no error; when the test returns an
error code the form is shown again with that error (and no entry is
created); and `_test_connection` returns no error exactly on a successful
session. -/
theorem config_flow_entry_iff (d : ConfigData)
    (testResult : ConfigData → Option String) :
    ((∃ d', async_step_user (some d) false testResult = FlowResult.createEntry d') ↔
      testResult d = none) ∧
    (testResult d = none →
      async_step_user (some d) false testResult = FlowResult.createEntry d) ∧
    (∀ e, testResult d = some e →
      async_step_user (some d) false testResult = FlowResult.showFormError e) ∧
    (∀ o, test_connection_result o = none ↔ o = ConnOutcome.ok) := by
  refine ⟨?_, ?_, ?_, ?_⟩
  · constructor
    · rintro ⟨d', hd'⟩
      cases h : testResult d with
      | none => rfl
      | some e => simp [async_step_user, h] at hd'
    · intro h
      exact ⟨d, by simp [async_step_user, h]⟩
  · intro h
    simp [async_step_user, h]
  · intro e h
    simp [async_step_user, h]
  · intro o
    cases o <;> simp [test_connection_result]

/-- C5 witness: at a concrete submission whose connectivity test fails with
`failed_auth`, the form is re-shown with that error. -/
theorem config_flow_entry_iff_witness :
    async_step_user
      (some { endpoint := "http://a", password := "p", file := "f",
              cert := none, encrypt_password := none, currency := "e" })
      false (fun _ => some "failed_auth") =
      FlowResult.showFormError "failed_auth" :=
  (config_flow_entry_iff
    { endpoint := "http://a", password := "p", file := "f",
      cert := none, encrypt_password := none, currency := "e" }
    (fun _ => some "failed_auth")).2.2.1 "failed_auth" rfl

/-- C7: a poll less than one minute (`MINIMUM_INTERVAL`) after the last
recorded update performs no fetch and leaves every sensor field unchanged,
for all three sensor kinds and regardless of what a fetch would have
returned. -/
theorem minimum_interval_skip (stA : AccountSensorState)
    (stB : BudgetSensorState) (stU : UncatSensorState) (now : Int)
    (fa : Except String Account) (fb : Except String Budget)
    (fu : Except String Nat)
    (hA : now - stA.balance_last_updated < MINIMUM_INTERVAL)
    (hB : now - stB.balance_last_updated < MINIMUM_INTERVAL)
    (hU : now - stU.last_updated < MINIMUM_INTERVAL) :
    account_async_update stA now fa = stA ∧
    budget_async_update stB now fb = stB ∧
    uncat_async_update stU now fu = stU := by
  refine ⟨?_, ?_, ?_⟩ <;>
    simp [account_async_update, budget_async_update, uncat_async_update,
      hA, hB, hU]

/-- C7 witness: a poll 30 seconds after the last update changes nothing,
even when the fetch would have raised. -/
theorem minimum_interval_skip_witness :
    account_async_update
      { balance := 0, account_id := none, available := true,
        balance_last_updated := 0 } 30 (Except.error "boom") =
      { balance := 0, account_id := none, available := true,
        balance_last_updated := 0 } ∧
    budget_async_update
      { budget_id := none, group_name := none, amounts := [], balance := 0,
        available := true, balance_last_updated := 0 } 30 (Except.error "boom") =
      { budget_id := none, group_name := none, amounts := [], balance := 0,
        available := true, balance_last_updated := 0 } ∧
    uncat_async_update
      { count := 0, available := true, last_updated := 0 } 30
      (Except.error "boom") =
      { count := 0, available := true, last_updated := 0 } :=
  minimum_interval_skip
    { balance := 0, account_id := none, available := true,
      balance_last_updated := 0 }
    { budget_id := none, group_name := none, amounts := [], balance := 0,
      available := true, balance_last_updated := 0 }
    { count := 0, available := true, last_updated := 0 }
    30 (Except.error "boom") (Except.error "boom") (Except.error "boom")
    (by decide) (by decide) (by decide)

/-- C6: for each of the three sensor kinds, a poll whose fetch raises is
caught: the sensor is marked unavailable and the previously reported state
(balance, amounts, count — hence also the computed budget sensor state) and
the recorded update time are left unchanged. -/
theorem poll_exception_marks_unavailable (stA : AccountSensorState)
    (stB : BudgetSensorState) (stU : UncatSensorState) (now : Int)
    (eA eB eU : String)
    (hA : ¬ now - stA.balance_last_updated < MINIMUM_INTERVAL)
    (hB : ¬ now - stB.balance_last_updated < MINIMUM_INTERVAL)
    (hU : ¬ now - stU.last_updated < MINIMUM_INTERVAL) :
    (account_async_update stA now (Except.error eA)).available = false ∧
    (account_async_update stA now (Except.error eA)).balance = stA.balance ∧
    (account_async_update stA now (Except.error eA)).account_id =
      stA.account_id ∧
    (account_async_update stA now (Except.error eA)).balance_last_updated =
      stA.balance_last_updated ∧
    (budget_async_update stB now (Except.error eB)).available = false ∧
    (budget_async_update stB now (Except.error eB)).amounts = stB.amounts ∧
    (budget_async_update stB now (Except.error eB)).balance = stB.balance ∧
    (∀ cur, budgetSensorState (budget_async_update stB now (Except.error eB))
      cur = budgetSensorState stB cur) ∧
    (uncat_async_update stU now (Except.error eU)).available = false ∧
    (uncat_async_update stU now (Except.error eU)).count = stU.count := by
  simp [account_async_update, budget_async_update, uncat_async_update,
    budgetSensorState, hA, hB, hU]

/-- C6 witness: a failing poll 90 seconds after the last update marks each
sensor unavailable and leaves its reported values unchanged. -/
theorem poll_exception_marks_unavailable_witness :
    (account_async_update
      { balance := 3, account_id := none, available := true,
        balance_last_updated := 0 } 90 (Except.error "boom")).available =
      false ∧
    (account_async_update
      { balance := 3, account_id := none, available := true,
        balance_last_updated := 0 } 90 (Except.error "boom")).balance = 3 ∧
    (uncat_async_update
      { count := 4, available := true, last_updated := 0 } 90
      (Except.error "boom")).count = 4 := by
  have h := poll_exception_marks_unavailable
    { balance := 3, account_id := none, available := true,
      balance_last_updated := 0 }
    { budget_id := none, group_name := none, amounts := [], balance := 0,
      available := true, balance_last_updated := 0 }
    { count := 4, available := true, last_updated := 0 }
    90 "boom" "boom" "boom" (by decide) (by decide) (by decide)
  exact ⟨h.1, h.2.1, h.2.2.2.2.2.2.2.2.2⟩

/-- C10: availability is monotone downward.  A single `async_update` never
turns `available` from `false` back to `true` (whatever the fetch outcome,
including a successful poll), and hence after any schedule of polls applied
to an unavailable sensor the sensor is still unavailable, for all three
sensor kinds. -/
theorem unavailable_is_permanent
    (stepsA : List (Int × Except String Account)) (stA : AccountSensorState)
    (stepsB : List (Int × Except String Budget)) (stB : BudgetSensorState)
    (stepsU : List (Int × Except String Nat)) (stU : UncatSensorState)
    (hA : stA.available = false) (hB : stB.available = false)
    (hU : stU.available = false) :
    (stepsA.foldl accountStep stA).available = false ∧
    (stepsB.foldl budgetStep stB).available = false ∧
    (stepsU.foldl uncatStep stU).available = false := by
  have stepA : ∀ (st : AccountSensorState) (p : Int × Except String Account),
      st.available = false → (accountStep st p).available = false := by
    intro st p h
    unfold accountStep account_async_update
    split
    · exact h
    · cases p.2 <;> simp [h]
  have stepB : ∀ (st : BudgetSensorState) (p : Int × Except String Budget),
      st.available = false → (budgetStep st p).available = false := by
    intro st p h
    unfold budgetStep budget_async_update
    split
    · exact h
    · cases p.2 <;> simp [h]
  have stepU : ∀ (st : UncatSensorState) (p : Int × Except String Nat),
      st.available = false → (uncatStep st p).available = false := by
    intro st p h
    unfold uncatStep uncat_async_update
    split
    · exact h
    · cases p.2 <;> simp [h]
  refine ⟨?_, ?_, ?_⟩
  · clear hB hU
    induction stepsA generalizing stA with
    | nil => exact hA
    | cons p t ih => exact ih _ (stepA _ _ hA)
  · clear hA hU
    induction stepsB generalizing stB with
    | nil => exact hB
    | cons p t ih => exact ih _ (stepB _ _ hB)
  · clear hA hB
    induction stepsU generalizing stU with
    | nil => exact hU
    | cons p t ih => exact ih _ (stepU _ _ hU)

/-- C10 witness: an unavailable account sensor polled once successfully
(well past the minimum interval) is still unavailable. -/
theorem unavailable_is_permanent_witness :
    (([(100, Except.ok { aid := some "a", aname := some "n", balance := 5 })] :
        List (Int × Except String Account)).foldl accountStep
      { balance := 0, account_id := none, available := false,
        balance_last_updated := 0 }).available = false :=
  (unavailable_is_permanent
    [(100, Except.ok { aid := some "a", aname := some "n", balance := 5 })]
    { balance := 0, account_id := none, available := false,
      balance_last_updated := 0 }
    [] { budget_id := none, group_name := none, amounts := [], balance := 0,
         available := false, balance_last_updated := 0 }
    [] { count := 0, available := false, last_updated := 0 }
    rfl rfl rfl).1

/-- C4: the budget sensor's reported state equals the category balance plus
the sum of the budgeted amounts of all months not later than the current
month (missing amounts counting as 0), rounded to two decimal places
(half-to-even at the second decimal, with rounding error of the scaled
value at most 1/2). -/
theorem budget_sensor_state_formula (st : BudgetSensorState) (cur : Nat) :
    budgetSensorState st cur =
      roundHalfEven2 (st.balance +
        ((st.amounts.filter fun a => monthNum a.month ≤ cur).map
          fun a => a.amount.getD 0).sum) ∧
    (∀ x : Rat, |x * 100 - (roundHalfEven (x * 100) : Rat)| ≤ 1 / 2 ∧
      roundHalfEven2 x = (roundHalfEven (x * 100) : Rat) / 100) := by
  constructor
  · rw [budgetSensorState, budgetStateTotal_eq_sum]
  · intro x
    exact ⟨roundHalfEven_err (x * 100), rfl⟩

/-- C9: in the conversion shared by `_get_budgets` and `_get_budget`, a raw
amount of `0` becomes `none`, exactly like an absent raw amount; hence
replacing any raw amount `0` by an absent amount changes neither
`_get_budgets` nor `_get_budget` output, and an absent amount contributes
`0` to the sensor's running total. -/
theorem zero_amount_indistinguishable :
    (∀ r : RawBudget, r.amount = some 0 →
      convertRow r = convertRow { r with amount := none }) ∧
    toAmount (some 0) = toAmount none ∧
    toAmount (some 0) = none ∧
    (∀ (rows : List RawBudget) (balanceOf : String → Option Rat),
      get_budgets (rows.map zeroToNone) balanceOf =
        get_budgets rows balanceOf) ∧
    (∀ (name : String) (rows : List RawBudget)
      (balanceOf : String → Option Rat),
      get_budget name (rows.map zeroToNone) balanceOf =
        get_budget name rows balanceOf) ∧
    (∀ (m : String) (amounts : List BudgetAmount) (cur : Nat),
      budgetStateTotal ({ month := m, amount := none } :: amounts) cur =
        budgetStateTotal amounts cur) := by
  refine ⟨?_, by decide, by decide, ?_, ?_, ?_⟩
  · intro r h
    simp [convertRow, toAmount, h]
  · intro rows balanceOf
    unfold get_budgets
    rw [List.foldl_map]
    simp only [insertRow_zeroToNone]
  · intro name rows balanceOf
    cases rows with
    | nil => rfl
    | cons r0 t =>
      have hmap : List.map convertRow (zeroToNone r0 :: List.map zeroToNone t) =
          List.map convertRow (r0 :: t) := by
        simp only [List.map_cons, List.map_map, convertRow_zeroToNone]
        congr 1
        exact List.map_congr_left fun a _ => by
          simp [convertRow_zeroToNone]
      simp only [List.map_cons, get_budget, zeroToNone_category, hmap]
  · intro m amounts cur
    by_cases h : monthNum m ≤ cur <;> simp [budgetStateTotal, h]

/-- C9 witness: a concrete row with raw amount `0` converts to the same
`BudgetAmount` as the same row with no raw amount. -/
theorem zero_amount_indistinguishable_witness :
    convertRow { category := some { cid := "i", cname := "c", group := none },
                 amount := some 0, month := 202401 } =
      convertRow { category := some { cid := "i", cname := "c", group := none },
                   amount := none, month := 202401 } :=
  zero_amount_indistinguishable.1
    { category := some { cid := "i", cname := "c", group := none },
      amount := some 0, month := 202401 } rfl

/-- C1 counterexample: with a cached handle (id 0) created at time 0 and a
call at time 100 — well within the 30-minute window — whose revalidation
fails, the returned session is NOT that of the cached handle: the handle is
discarded and a fresh one (id 1) is created, refuting "otherwise the cached
handle is re-validated and re-synced and then reused". -/
theorem get_session_reuse_counterexample :
    ¬ ((0 : Int) + SESSION_TIMEOUT < 100) ∧
    (get_session
        { actual := some { hid := 0, lastValidated := 0 }, session_started_at := 0 }
        100 false 1).1.hid ≠ 0 ∧
    (get_session
        { actual := some { hid := 0, lastValidated := 0 }, session_started_at := 0 }
        100 false 1).1.hid = 1 := by
  decide

/-- C1 (amended): for every `get_session` call: with no cached handle a
fresh one is created and the session start time recorded; with a cached
handle created more than 30 minutes ago the handle is closed and replaced
by a fresh one; with a fresh-enough cached handle it is re-validated and
re-synced and reused when revalidation succeeds, and discarded for a fresh
handle when revalidation fails; the returned session is always that of a
handle validated at the time of the call (hence within the last 30
minutes), and it is the handle left cached. -/
theorem get_session_lifecycle (st : ApiState) (now : Int) (validateOk : Bool)
    (freshId : Nat) :
    (st.actual = none →
      (get_session st now validateOk freshId).1.hid = freshId ∧
      SessionEvent.created freshId ∈
        (get_session st now validateOk freshId).2.2 ∧
      (get_session st now validateOk freshId).2.1.session_started_at = now) ∧
    (∀ h0 : Handle, st.actual = some h0 →
      st.session_started_at + SESSION_TIMEOUT < now →
      SessionEvent.closed h0.hid ∈
        (get_session st now validateOk freshId).2.2 ∧
      (get_session st now validateOk freshId).1.hid = freshId ∧
      (get_session st now validateOk freshId).2.1.session_started_at = now) ∧
    (∀ h0 : Handle, st.actual = some h0 →
      ¬ st.session_started_at + SESSION_TIMEOUT < now → validateOk = true →
      (get_session st now validateOk freshId).1 =
        { h0 with lastValidated := now } ∧
      SessionEvent.validated h0.hid ∈
        (get_session st now validateOk freshId).2.2 ∧
      SessionEvent.synced h0.hid ∈
        (get_session st now validateOk freshId).2.2 ∧
      (get_session st now validateOk freshId).2.1.session_started_at =
        st.session_started_at) ∧
    (∀ h0 : Handle, st.actual = some h0 →
      ¬ st.session_started_at + SESSION_TIMEOUT < now → validateOk = false →
      SessionEvent.validated h0.hid ∈
        (get_session st now validateOk freshId).2.2 ∧
      (get_session st now validateOk freshId).1.hid = freshId ∧
      SessionEvent.created freshId ∈
        (get_session st now validateOk freshId).2.2) ∧
    ((get_session st now validateOk freshId).1.lastValidated = now ∧
     now ≤ (get_session st now validateOk freshId).1.lastValidated +
       SESSION_TIMEOUT ∧
     (get_session st now validateOk freshId).2.1.actual =
       some (get_session st now validateOk freshId).1) := by
  have hT : (0 : Int) ≤ SESSION_TIMEOUT := by decide
  obtain ⟨a, t⟩ := st
  cases a with
  | none =>
    refine ⟨?_, ?_, ?_, ?_, ?_⟩ <;>
      simp [get_session] <;> omega
  | some h0 =>
    by_cases hstale : t + SESSION_TIMEOUT < now
    · cases validateOk <;>
        (refine ⟨?_, ?_, ?_, ?_, ?_⟩ <;>
          simp [get_session, hstale] <;> omega)
    · cases validateOk <;>
        (refine ⟨?_, ?_, ?_, ?_, ?_⟩ <;>
          simp [get_session, hstale] <;> omega)

/-- C1 witness: with no cached handle, a call at time 50 creates and
returns the fresh handle (id 7). -/
theorem get_session_lifecycle_witness :
    (get_session { actual := none, session_started_at := 0 } 50 true 7).1.hid =
      7 :=
  ((get_session_lifecycle { actual := none, session_started_at := 0 }
    50 true 7).1 rfl).1

/-- C3 counterexample: a row whose raw amount is present but equal to `0`
is stored by `_get_budgets` with amount `none`, while the claim's
conversion ("raw amount divided by 100, or None when the raw amount is
absent") yields a present amount — so the claim's description of the
contributed `BudgetAmount` is false at this input. -/
theorem budgets_amount_zero_counterexample :
    amountsOf
      (List.foldl insertRow []
        [{ category := some { cid := "id0", cname := "cat", group := none },
           amount := some 0, month := 202401 }]) "cat" =
      [{ month := "202401", amount := none }] ∧
    (toAmountClaim (some 0)).isSome = true ∧
    ({ month := "202401", amount := none } : BudgetAmount).amount = none := by
  decide

/-- C3 (amended): `_get_budgets` groups rows into one `Budget` per category
display name (keys are the distinct display names in first-appearance
order, without duplicates); rows without a category are skipped; every row
with a category contributes exactly one `BudgetAmount` — month the row
month as string, amount the raw amount divided by 100 when present and
nonzero, `none` when absent or zero — to the Budget of its display name;
each resulting amounts list is sorted ascending by month string (a
permutation of the exact contributions); and `_get_budget` builds the same
record shape for a single named budget. -/
theorem budgets_grouping (rows : List RawBudget)
    (balanceOf : String → Option Rat) :
    get_budgets rows balanceOf =
      get_budgets (rows.filter fun r => r.category.isSome) balanceOf ∧
    (rows.foldl insertRow []).map Prod.fst =
      firstKeys (rows.filterMap rowDisplay) ∧
    ((rows.foldl insertRow []).map Prod.fst).Nodup ∧
    (∀ d, amountsOf (rows.foldl insertRow []) d =
      (rows.filter fun r => rowDisplay r = some d).map convertRow) ∧
    (∀ l : List BudgetAmount, (sortAmounts l).Perm l ∧
      (sortAmounts l).Sorted monthLe) ∧
    (∀ b ∈ get_budgets rows balanceOf, b.amounts.Sorted monthLe) ∧
    (∀ (name : String) (rows2 : List RawBudget)
      (bal2 : String → Option Rat), rows2 ≠ [] →
      ∃ b, get_budget name rows2 bal2 = some b ∧ b.bname = name ∧
        b.amounts.Sorted monthLe ∧
        b.amounts.Perm (rows2.map convertRow)) := by
  refine ⟨?_, ?_, ?_, ?_, ?_, ?_, ?_⟩
  · simp only [get_budgets, foldl_insertRow_filter]
  · simpa [firstKeys] using keys_foldl rows []
  · rw [keys_foldl]
    exact foldl_addKey_nodup _ _ (by simp)
  · intro d
    simpa [amountsOf, lookupB] using amountsOf_foldl rows [] d
  · intro l
    exact ⟨List.perm_insertionSort monthLe l,
      List.sorted_insertionSort monthLe l⟩
  · intro b hb
    simp only [get_budgets, List.mem_map] at hb
    obtain ⟨p, hp, rfl⟩ := hb
    exact List.sorted_insertionSort monthLe _
  · intro name rows2 bal2 hne
    cases rows2 with
    | nil => exact absurd rfl hne
    | cons r0 t =>
      refine ⟨_, rfl, rfl, List.sorted_insertionSort monthLe _,
        List.perm_insertionSort monthLe _⟩

/-- C3 witness: `_get_budget` on one concrete row yields the named budget
record with sorted amounts that are a permutation of the converted rows. -/
theorem budgets_grouping_witness :
    ∃ b, get_budget "groceries"
        [{ category := some { cid := "i", cname := "c", group := none },
           amount := none, month := 202401 }] (fun _ => none) = some b ∧
      b.bname = "groceries" ∧ b.amounts.Sorted monthLe ∧
      b.amounts.Perm
        ([{ category := some { cid := "i", cname := "c", group := none },
            amount := none, month := 202401 }].map convertRow) :=
  (budgets_grouping [] fun _ => none).2.2.2.2.2.2 "groceries"
    [{ category := some { cid := "i", cname := "c", group := none },
       amount := none, month := 202401 }] (fun _ => none) (by decide)

end ActualBudget
